import Mathlib

/-!
Shallow embedding of the discord-customrpc-manager core:

* `RPCManager` (src/customrpc/core/rpc_manager.py) — the connection
  supervisor owning the external presence connection, its publish
  operation `update_activity`, `connect`, `disconnect`, and the body of
  the background liveness loop `_auto_reconnect_loop`.
* The IPC command channel (src/customrpc/utils/ipc.py) —
  `IPCServer.accept_connection` and `IPCClient.send_command`.
* The command dispatch layer (src/customrpc/main.py) —
  `CustomRPCApp._process_ipc_command`, `_handle_ipc_command`,
  `_build_activity`, and the pieces of `CLIController`
  (src/customrpc/cli/cli_controller.py) and `ProfileManager`
  (src/customrpcmanager/core/profile_manager.py) they call.

External effects (the Discord client library, sockets, JSON codecs) are
modelled as explicit oracles/parameters; everything else follows the
Python control flow line by line.
-/

/-! ## JSON-like values carried in activity dictionaries -/

/-- Values that can appear in an activity dict produced by
`_build_activity` (main.py:278-313): strings, integers, booleans, the
two-element party list, and the buttons list. -/
inductive JVal where
  | s (v : String)
  | n (v : Int)
  | b (v : Bool)
  | pair (x y : Int)
  | btns (v : List (String × String))
deriving DecidableEq

/-- An activity dictionary as passed to `RPCManager.update_activity`:
an association list whose values may be `none` (Python `None`).
Python dicts have unique keys; the list model does not enforce that,
which only widens the statements proved about it. -/
abbrev Activity := List (String × Option JVal)

/-! ## RPCManager state (rpc_manager.py) -/

/-- Connection status constants (rpc_manager.py:14-19, class RPCStatus). -/
inductive RPCStatus where
  | disconnected
  | connecting
  | connected
  | error
deriving DecidableEq

/-- The mutable fields of `RPCManager` (rpc_manager.py:25-36).
`client` is whether `self.client` is non-None (the pypresence object is
opaque); `shouldReconnect` is `self._should_reconnect`. The reconnect
thread handle and event are not part of the data model. -/
structure RPCState where
  client : Bool
  clientId : Option String
  status : RPCStatus
  currentActivity : Option Activity
  shouldReconnect : Bool
deriving DecidableEq

/-- Outcome of the external `client.update(**rpc_data)` call
(rpc_manager.py:126): it either completes or raises. -/
inductive UpdateOutcome where
  | ok
  | raises
deriving DecidableEq

/-- Outcome of `Presence(client_id)` + `client.connect()`
(rpc_manager.py:60-61), with the three exception classes the code
distinguishes (rpc_manager.py:74-85). In all three failure cases the
`Presence` constructor has succeeded (so `self.client` is set) and the
handshake raised. -/
inductive ConnectOutcome where
  | ok
  | invalidId
  | invalidPipe
  | otherError
deriving DecidableEq

/-- The dict comprehension `{k: v for k, v in activity.items() if v is
not None}` (rpc_manager.py:122): the entries of the activity whose
value is not None, values unwrapped. -/
def rpcData (activity : Activity) : List (String × JVal) :=
  activity.filterMap (fun kv => kv.2.map (fun v => (kv.1, v)))

/-- Result of `update_activity`: the returned bool, the state after the
call, and the list of payloads successfully delivered to the external
service by `client.update` during the call (empty when the call raised
or was never made). -/
structure UpdateResult where
  ok : Bool
  state : RPCState
  sent : List (List (String × JVal))
deriving DecidableEq

/-- `RPCManager.update_activity` (rpc_manager.py:106-133). Guard: `if
not self.client or self.status != RPCStatus.CONNECTED: return False`
(line 116). Otherwise `client.update(**rpc_data)` is attempted; if it
raises, the exception is caught at lines 131-133 and False is returned
with no state change (`self.current_activity` is only assigned at line
127, after the update succeeded). -/
def update_activity (st : RPCState) (activity : Activity)
    (o : UpdateOutcome) : UpdateResult :=
  if st.client = false ∨ st.status ≠ RPCStatus.connected then
    ⟨false, st, []⟩
  else
    match o with
    | .raises => ⟨false, st, []⟩
    | .ok => ⟨true, { st with currentActivity := some activity },
              [rpcData activity]⟩

/-- `RPCManager.disconnect` (rpc_manager.py:87-104): clears
`_should_reconnect`; if a client exists, closes it and resets
`client`, `status`, `current_activity`; when no client exists the
status and activity fields are left as they are. -/
def disconnectRPC (st : RPCState) : RPCState :=
  let st1 := { st with shouldReconnect := false }
  if st1.client then
    { st1 with client := false, status := RPCStatus.disconnected,
               currentActivity := none }
  else st1

/-- `RPCManager.connect` (rpc_manager.py:38-85). Idempotent guard at
line 48; otherwise disconnects any existing client, sets status to
connecting and remembers the client id, then attempts the handshake.
On success: connected, live client, reconnect loop armed. On any of
the three failures: status error (the `Presence` object was assigned
at line 60 before the raise, so `client` is set). -/
def connect (st : RPCState) (clientId : String)
    (o : ConnectOutcome) : Bool × RPCState :=
  if st.status = RPCStatus.connected ∧ st.clientId = some clientId then
    (true, st)
  else
    let st1 := if st.client then disconnectRPC st else st
    let st2 := { st1 with status := RPCStatus.connecting,
                          clientId := some clientId }
    match o with
    | .ok => (true, { st2 with client := true,
                               status := RPCStatus.connected,
                               shouldReconnect := true })
    | _ => (false, { st2 with client := true,
                              status := RPCStatus.error })

/-- One iteration body of `RPCManager._auto_reconnect_loop`
(rpc_manager.py:155-180), given the outcome of the probe's external
update call. The loop body is:

    if self.status == RPCStatus.CONNECTED and self.client:
        try:
            if self.current_activity:
                self.update_activity(self.current_activity, log_args=False)
        except Exception as e:
            ... set DISCONNECTED, reconnect, republish ...

`update_activity` catches every exception internally
(rpc_manager.py:131-133) and returns False, and the loop discards that
return value, so the `except` handler at lines 164-175 can never run;
the tick reduces to the probe call itself. Returns the state after the
tick and the payloads successfully delivered during it. -/
def autoReconnectTick (st : RPCState) (probe : UpdateOutcome) :
    RPCState × List (List (String × JVal)) :=
  if st.status = RPCStatus.connected ∧ st.client = true then
    match st.currentActivity with
    | some act =>
        let r := update_activity st act probe
        (r.state, r.sent)
    | none => (st, [])
  else (st, [])

/-! ## IPC command channel (utils/ipc.py) -/

/-- A command dict as read by the server: `command.get('action')` and
`command.get('profile')` (main.py:431, 447). -/
structure Command where
  action : Option String
  profile : Option String
deriving DecidableEq

/-- A response dict: required `success`, optional `output`, optional
`error` (ipc.py / main.py response shapes). -/
structure Response where
  success : Bool
  output : Option String
  error : Option String
deriving DecidableEq

/-- A message written back to the client socket by the server: either a
JSON-serialized response (ipc.py:82-83) or the legacy literal `b'OK'`
acknowledgment (ipc.py:86). -/
inductive WireMsg where
  | json (r : Response)
  | okBytes
deriving DecidableEq

/-- What `socket.accept()` + `conn.recv(4096)` produced for one call of
`accept_connection`: either no pending connection (BlockingIOError,
ipc.py:89) or a connection whose received body is the given string
(empty string models empty `data`). -/
inductive AcceptInput where
  | noConn
  | conn (body : String)
deriving DecidableEq

/-- Result of `IPCServer.accept_connection`: the returned command (or
None) and the messages written back to the client before the
connection closed. -/
structure AcceptResult where
  ret : Option Command
  responsesSent : List WireMsg
deriving DecidableEq

/-- `IPCServer.accept_connection` (ipc.py:64-94). `parseCmd` stands for
`json.loads(data.decode('utf-8'))` followed by reading it as a command
dict, returning `none` when `json.loads` raises. On BlockingIOError:
return None. On empty data: the `if data:` block is skipped and the
function returns None, nothing written. On a decode failure the raised
exception is caught by the `except Exception` at ipc.py:92-94 and None
is returned — nothing was written to the socket. On a decoded command:
with a callback, its response is serialized and sent (ipc.py:80-83),
otherwise `b'OK'` is sent (ipc.py:86), and the command is returned. -/
def accept_connection (parseCmd : String → Option Command)
    (callback : Option (Command → Response)) :
    AcceptInput → AcceptResult
  | .noConn => ⟨none, []⟩
  | .conn body =>
      if body = "" then ⟨none, []⟩
      else
        match parseCmd body with
        | none => ⟨none, []⟩
        | some cmd =>
            match callback with
            | some cb => ⟨some cmd, [WireMsg.json (cb cmd)]⟩
            | none => ⟨some cmd, [WireMsg.okBytes]⟩

/-- What the client's socket interaction produced for one call of
`send_command`: either some exception was raised while connecting,
sending, or receiving (connection refused, timeout, reset — `msg` is
`str(e)`), or the receive completed with the given body (empty string
models empty `response_data`). -/
inductive ClientWire where
  | err (msg : String)
  | okBody (body : String)
deriving DecidableEq

/-- `IPCClient.send_command` (ipc.py:119-150). `parseResp` stands for
`json.loads(response_data.decode('utf-8'))` read as a response dict,
`none` when `json.loads` raises `JSONDecodeError`. Any socket
exception is caught by the outer `except Exception` (ipc.py:148-150)
and becomes a failure response carrying `str(e)`. Empty data falls
through to the `No response` failure (ipc.py:147). A body that is not
valid JSON is accepted as bare success when it is the legacy literal
`OK` (ipc.py:143-145) and otherwise yields the `Invalid response`
failure (ipc.py:146). -/
def send_command (parseResp : String → Option Response) :
    ClientWire → Response
  | .err msg => ⟨false, none, some msg⟩
  | .okBody body =>
      if body = "" then ⟨false, none, some "No response"⟩
      else
        match parseResp body with
        | some r => r
        | none =>
            if body = "OK" then ⟨true, none, none⟩
            else ⟨false, none, some "Invalid response"⟩

/-! ## Profiles and the application command dispatch (main.py) -/

/-- A stored profile, with the fields read by `_build_activity`
(main.py:278-313) and the `app_id` read by the connect paths. `inst`
models the Python key `'instance'` (a Lean keyword). `buttons` is the
list of (label, url) pairs. -/
structure Profile where
  name : Option String
  details : Option String
  state : Option String
  start_timestamp : Option Int
  end_timestamp : Option Int
  large_image_key : Option String
  large_image_text : Option String
  small_image_key : Option String
  small_image_text : Option String
  party_size : Option Int
  party_max : Option Int
  buttons : List (String × String)
  inst : Option Bool
  app_id : Option String
deriving DecidableEq

/-- A profile with every field absent, used to build concrete stores. -/
def emptyProfile : Profile :=
  ⟨none, none, none, none, none, none, none, none, none, none, none,
   [], none, none⟩

/-- One entry of the activity dict for a string field guarded by Python
truthiness (`if data.get(k):` — absent and empty string are both
falsy). -/
def entryS (k : String) : Option String → Activity
  | some v => if v = "" then [] else [(k, some (JVal.s v))]
  | none => []

/-- One entry of the activity dict for an integer field guarded by
Python truthiness (absent and 0 are both falsy). -/
def entryN (k : String) : Option Int → Activity
  | some v => if v = 0 then [] else [(k, some (JVal.n v))]
  | none => []

/-- `CustomRPCApp._build_activity` (main.py:278-313): inserts each
present-and-truthy field under its RPC key, the party pair when both
`party_size` and `party_max` are truthy, the buttons list when
non-empty, and `instance` whenever it `is not None`. -/
def buildActivity (d : Profile) : Activity :=
  entryS "name" d.name ++ entryS "details" d.details ++
  entryS "state" d.state ++
  entryN "start" d.start_timestamp ++ entryN "end" d.end_timestamp ++
  entryS "large_image" d.large_image_key ++
  entryS "large_text" d.large_image_text ++
  entryS "small_image" d.small_image_key ++
  entryS "small_text" d.small_image_text ++
  (match d.party_size, d.party_max with
   | some ps, some pm =>
       if ps ≠ 0 ∧ pm ≠ 0 then [("party_size", some (JVal.pair ps pm))]
       else []
   | _, _ => []) ++
  (if d.buttons = [] then []
   else [("buttons", some (JVal.btns d.buttons))]) ++
  (match d.inst with
   | some v => [("instance", some (JVal.b v))]
   | none => [])

/-- The application state touched by the IPC command dispatch:
the profile store (name → stored data, modelling the profiles
directory), the RPCManager state, whether a main window exists, the
window's form data when one does (`main_window.rpc_form.get_data()`),
the `last_profile` config key, and whether a quit has been scheduled
(the `QTimer.singleShot` at main.py:441). -/
structure AppState where
  profiles : List (String × Profile)
  rpc : RPCState
  mainWindow : Bool
  formData : Option Profile
  lastProfile : Option String
  quitScheduled : Bool
deriving DecidableEq

/-- `ProfileManager.load_profile` (profile_manager.py:67-92) as seen
through the store: the profile under that name, or `none` when the
file does not exist or fails to read. -/
def loadProfile (st : AppState) (nm : String) : Option Profile :=
  (st.profiles.lookup nm)

/-- Lexicographic order on strings by code point, matching Python's
string `<` used by `sorted` (profile_manager.py:228). -/
def charsLe : List Char → List Char → Bool
  | [], _ => true
  | _ :: _, [] => false
  | a :: as, b :: bs =>
      if a.toNat < b.toNat then true
      else if a.toNat = b.toNat then charsLe as bs
      else false

/-- String comparison used by the profile-name sort. -/
def strLe (a b : String) : Bool := charsLe a.data b.data

/-- Insertion into a sorted list of names. -/
def insertSorted (x : String) : List String → List String
  | [] => [x]
  | y :: ys => if strLe x y then x :: y :: ys else y :: insertSorted x ys

/-- Insertion sort over profile names, modelling Python's `sorted`. -/
def sortStrings : List String → List String
  | [] => []
  | x :: xs => insertSorted x (sortStrings xs)

/-- `ProfileManager.list_profiles` (profile_manager.py:211-232): for
each stored profile take `data.get('name', path.stem)` and return the
sorted list. -/
def listProfiles (st : AppState) : List String :=
  sortStrings (st.profiles.map (fun p => p.2.name.getD p.1))

/-- The numbered lines printed by `execute_list_profiles`
(cli_controller.py:46-47): `enumerate(profiles, 1)` rendered as
`  {i}. {profile}` plus the newline added by `print`. -/
def numberedLines : Nat → List String → String
  | _, [] => ""
  | i, p :: rest =>
      "  " ++ toString i ++ ". " ++ p ++ "\n" ++ numberedLines (i + 1) rest

/-- Stdout produced by `CLIController.execute_list_profiles`
(cli_controller.py:32-49). -/
def executeListProfiles (names : List String) : String :=
  if names = [] then "No profiles found.\n"
  else "Available profiles:\n" ++ numberedLines 1 names

/-- `CLIController.execute_load_profile` (cli_controller.py:51-69):
exit code, stdout printed, and the state after (`config.set` of
`last_profile` on success). -/
def executeLoadProfile (st : AppState) (nm : String) :
    Nat × String × AppState :=
  match loadProfile st nm with
  | none => (1, "Error: Profile \x27" ++ nm ++ "\x27 not found.\n", st)
  | some _ => (0, "Loaded profile \x27" ++ nm ++ "\x27\n",
               { st with lastProfile := some nm })

/-- `CustomRPCApp._handle_disconnect` (main.py:246-254): disconnects
the RPC manager (UI/tray updates are outside the model). -/
def handleDisconnect (st : AppState) : AppState :=
  { st with rpc := disconnectRPC st.rpc }

/-- `CustomRPCApp._handle_connect` (main.py:219-244): returns early
without a window or without a truthy `app_id` in the form data;
otherwise connects and, on success, publishes the activity built from
the form data. -/
def handleConnectGui (st : AppState) (co : ConnectOutcome)
    (uo : UpdateOutcome) : AppState :=
  if st.mainWindow = false then st
  else
    match st.formData with
    | none => st
    | some d =>
        match d.app_id with
        | none => st
        | some aid =>
            if aid = "" then st
            else
              let (ok, rpc1) := connect st.rpc aid co
              if ok then
                let r := update_activity rpc1 (buildActivity d) uo
                { st with rpc := r.state }
              else { st with rpc := rpc1 }

/-- Result of `_process_ipc_command`: the explicitly returned output
string, the stdout captured while it ran, and the state after. -/
structure ProcessResult where
  ret : String
  printed : String
  state : AppState
deriving DecidableEq

/-- The `action == 'connect'` branch of `_process_ipc_command`
(main.py:446-472). With a profile argument: load it, then `if app_id
and self.rpc.connect(app_id):` — a missing or empty `app_id`
short-circuits to the failure message without calling connect; on a
successful connect the built activity is published (return value
discarded). Without a profile argument: `_handle_connect` when a main
window exists, else the headless refusal message. -/
def connectBranch (st : AppState) (profileArg : Option String)
    (co : ConnectOutcome) (uo : UpdateOutcome) : ProcessResult :=
  match profileArg with
  | some nm =>
      match loadProfile st nm with
      | some prof =>
          match prof.app_id with
          | some aid =>
              if aid = "" then
                ⟨"Failed to connect to Discord RPC\n", "", st⟩
              else
                let (ok, rpc1) := connect st.rpc aid co
                if ok then
                  let r := update_activity rpc1 (buildActivity prof) uo
                  ⟨"Connected to Discord RPC with profile: " ++ nm ++ "\n",
                   "", { st with rpc := r.state }⟩
                else
                  ⟨"Failed to connect to Discord RPC\n", "",
                   { st with rpc := rpc1 }⟩
          | none => ⟨"Failed to connect to Discord RPC\n", "", st⟩
      | none =>
          ⟨"Profile \x27" ++ nm ++ "\x27 not found\n", "", st⟩
  | none =>
      if st.mainWindow then
        ⟨"Connected to Discord RPC\n", "", handleConnectGui st co uo⟩
      else
        ⟨"Cannot connect without profile in headless mode\n", "", st⟩

/-- The `action == 'load_profile'` branch of `_process_ipc_command`
(main.py:473-484): runs `execute_load_profile` (whose prints are
captured) and adds the failure line on a non-zero exit code; the
combobox update on success is UI-only. -/
def loadProfileBranch (st : AppState) (profileArg : Option String) :
    ProcessResult :=
  match profileArg with
  | some nm =>
      let r := executeLoadProfile st nm
      if r.1 = 0 then ⟨"", r.2.1, r.2.2⟩
      else ⟨"Failed to load profile \x27" ++ nm ++ "\x27\n", r.2.1, r.2.2⟩
  | none => ⟨"", "", st⟩

/-- `CustomRPCApp._process_ipc_command` (main.py:422-486): the
`if action == ... elif ...` chain. Any action not in the five-branch
chain falls through and the initial `output = ""` is returned with no
effect. -/
def processIpcCommand (st : AppState) (cmd : Command)
    (co : ConnectOutcome) (uo : UpdateOutcome) : ProcessResult :=
  if cmd.action = some "list_profiles" then
    ⟨"", executeListProfiles (listProfiles st), st⟩
  else if cmd.action = some "quit" then
    ⟨"Quitting application...\n", "", { st with quitScheduled := true }⟩
  else if cmd.action = some "disconnect" then
    ⟨"Disconnected from Discord RPC\n", "", handleDisconnect st⟩
  else if cmd.action = some "connect" then
    connectBranch st cmd.profile co uo
  else if cmd.action = some "load_profile" then
    loadProfileBranch st cmd.profile
  else
    ⟨"", "", st⟩

/-- Result of `_handle_ipc_command`: the response sent back and the
state after. -/
structure HandleResult where
  response : Response
  state : AppState
deriving DecidableEq

/-- `CustomRPCApp._handle_ipc_command` (main.py:381-420): runs
`_process_ipc_command` with stdout captured, combines the returned
output with the captured text (`output + captured` when the returned
output is truthy, else just `captured`), and answers success. The
`except` branch (main.py:411-418) fires only when
`_process_ipc_command` raises, which the embedded dispatch — a total
function — never does. -/
def handleIpcCommand (st : AppState) (cmd : Command)
    (co : ConnectOutcome) (uo : UpdateOutcome) : HandleResult :=
  let r := processIpcCommand st cmd co uo
  let full := if r.ret = "" then r.printed else r.ret ++ r.printed
  ⟨⟨true, some full, none⟩, r.state⟩

/-! ## Concrete fixtures for witnesses and counterexamples -/

/-- A freshly constructed RPCManager (rpc_manager.py:25-36). -/
def rpcInit : RPCState :=
  ⟨false, none, RPCStatus.disconnected, none, false⟩

/-- A connected supervisor with a remembered payload, as after a
successful connect and publish. -/
def stConn : RPCState :=
  ⟨true, some "123456789012345678", RPCStatus.connected,
   some [("details", some (JVal.s "hi"))], true⟩

/-- A sample activity with one present and one None field. -/
def aEx : Activity :=
  [("details", some (JVal.s "x")), ("state", none)]

/-- An application state with an empty profile store, headless. -/
def st0 : AppState := ⟨[], rpcInit, false, none, none, false⟩

/-- A profile named Gaming. -/
def profGaming : Profile := { emptyProfile with name := some "Gaming" }

/-- A profile named Work. -/
def profWork : Profile := { emptyProfile with name := some "Work" }

/-- An application state whose store holds exactly the profiles Work
and Gaming (deliberately listed out of order, so that the sorted
listing is visible). -/
def stGW : AppState :=
  ⟨[("Work", profWork), ("Gaming", profGaming)], rpcInit, false, none,
   none, false⟩

/-- A sample server-side handler used in channel fixtures. -/
def cbEx : Command → Response := fun _ => ⟨true, some "", none⟩

/-! ## Claims -/

/-- Claim C1: the spec says a liveness tick whose re-publish probe
fails leaves the supervisor Connected with the payload republished, or
Disconnected when reconnect fails. The code cannot do either: this
theorem shows that from any Connected state with a live client and a
remembered payload, a tick whose probe raises leaves the state exactly
as it was — still Connected, payload stale — and delivers nothing,
because `update_activity` swallows the exception (rpc_manager.py:131)
and the loop's reconnect handler (rpc_manager.py:164-175) never
runs. -/
theorem autoReconnectTick_probe_failure_stuck (st : RPCState)
    (p : Activity) (hc : st.client = true)
    (hs : st.status = RPCStatus.connected)
    (ha : st.currentActivity = some p) :
    autoReconnectTick st UpdateOutcome.raises = (st, []) := by
  simp [autoReconnectTick, update_activity, hc, hs, ha]

/-- Witness for C1 at a concrete connected state. -/
theorem autoReconnectTick_probe_failure_stuck_witness :
    autoReconnectTick stConn UpdateOutcome.raises = (stConn, []) :=
  autoReconnectTick_probe_failure_stuck stConn
    [("details", some (JVal.s "hi"))] rfl rfl rfl

/-- Claim C8: `update_activity` fails with no external delivery and no
state change unless the status is Connected with a live client, and
whenever it succeeds the published payload is stored as
`current_activity` for later replay. -/
theorem update_activity_gating_and_memory (st : RPCState)
    (a : Activity) (o : UpdateOutcome) :
    (¬ (st.client = true ∧ st.status = RPCStatus.connected) →
      update_activity st a o = ⟨false, st, []⟩) ∧
    ((update_activity st a o).ok = true →
      (update_activity st a o).state.currentActivity = some a) := by
  constructor
  · intro h
    have hg : st.client = false ∨ st.status ≠ RPCStatus.connected := by
      by_cases hc : st.client = true
      · exact Or.inr (fun hs => h ⟨hc, hs⟩)
      · exact Or.inl (by simpa using hc)
    simp [update_activity, hg]
  · intro hok
    by_cases hg : st.client = false ∨ st.status ≠ RPCStatus.connected
    · simp [update_activity, hg] at hok
    · cases o with
      | raises => simp [update_activity, hg] at hok
      | ok => simp [update_activity, hg]

/-- Witness for C8: the gating part at a disconnected state, the
memory part at a connected state. -/
theorem update_activity_gating_and_memory_witness :
    update_activity rpcInit aEx UpdateOutcome.ok = ⟨false, rpcInit, []⟩ ∧
    (update_activity stConn aEx UpdateOutcome.ok).state.currentActivity
      = some aEx :=
  ⟨(update_activity_gating_and_memory rpcInit aEx UpdateOutcome.ok).1
      (by decide),
   (update_activity_gating_and_memory stConn aEx UpdateOutcome.ok).2
      (by decide)⟩

/-- Claim C9: when connected with a live client and the external call
completes, the data delivered is exactly `rpcData a`, and an entry
belongs to `rpcData a` precisely when the payload holds that key with
that non-None value — None-valued fields contribute nothing. -/
theorem update_activity_sent_fields (st : RPCState) (a : Activity)
    (hc : st.client = true) (hs : st.status = RPCStatus.connected) :
    (update_activity st a UpdateOutcome.ok).sent = [rpcData a] ∧
    (∀ k v, (k, v) ∈ rpcData a ↔ (k, some v) ∈ a) := by
  constructor
  · simp [update_activity, hc, hs]
  · intro k v
    rw [rpcData, List.mem_filterMap]
    constructor
    · rintro ⟨⟨k1, ov⟩, hin, hf⟩
      rcases Option.map_eq_some'.mp hf with ⟨w, hw, hkv⟩
      simp only [Prod.mk.injEq] at hkv
      obtain ⟨hk, hv⟩ := hkv
      simp only at hw
      subst hk; subst hv; rw [hw] at hin
      exact hin
    · intro h
      exact ⟨(k, some v), h, rfl⟩

/-- Witness for C9 at a concrete connected state and payload with one
None field. -/
theorem update_activity_sent_fields_witness :
    (update_activity stConn aEx UpdateOutcome.ok).sent = [rpcData aEx] ∧
    (("details", JVal.s "x") ∈ rpcData aEx ↔
      ("details", some (JVal.s "x")) ∈ aEx) :=
  ⟨(update_activity_sent_fields stConn aEx rfl rfl).1,
   (update_activity_sent_fields stConn aEx rfl rfl).2 "details"
     (JVal.s "x")⟩

/-- Claim C10: when connected with a live client, a raising external
update makes `update_activity` return False with the state — both
status and the stored `current_activity` — exactly as before, and
nothing delivered. -/
theorem update_activity_failure_preserves_state (st : RPCState)
    (a : Activity) (hc : st.client = true)
    (hs : st.status = RPCStatus.connected) :
    update_activity st a UpdateOutcome.raises = ⟨false, st, []⟩ := by
  simp [update_activity, hc, hs]

/-- Witness for C10 at a concrete connected state. -/
theorem update_activity_failure_preserves_state_witness :
    update_activity stConn aEx UpdateOutcome.raises =
      ⟨false, stConn, []⟩ :=
  update_activity_failure_preserves_state stConn aEx rfl rfl

/-- Claim C2 counterexample: the spec says an unknown action yields
`success=false`. At the concrete command with action `frobnicate` the
handler answers `success=true` (main.py:422-486 has no else branch for
unknown actions, and `_handle_ipc_command` wraps the empty output in a
success response), so the claim as stated is false. -/
theorem unknown_action_counterexample :
    ¬ ((handleIpcCommand st0 ⟨some "frobnicate", none⟩
        ConnectOutcome.ok UpdateOutcome.ok).response.success = false) := by
  decide

/-- Claim C2 amended: a command whose action is none of the five named
actions is silently ignored — the handler returns `success=true` with
empty output and leaves the state unchanged (and, being a total
dispatch, never raises past the handler boundary). -/
theorem unknown_action_ignored (st : AppState) (cmd : Command)
    (co : ConnectOutcome) (uo : UpdateOutcome)
    (h1 : cmd.action ≠ some "connect")
    (h2 : cmd.action ≠ some "disconnect")
    (h3 : cmd.action ≠ some "quit")
    (h4 : cmd.action ≠ some "list_profiles")
    (h5 : cmd.action ≠ some "load_profile") :
    handleIpcCommand st cmd co uo = ⟨⟨true, some "", none⟩, st⟩ := by
  simp [handleIpcCommand, processIpcCommand, h1, h2, h3, h4, h5]

/-- Witness for the amended C2 at a concrete unknown action. -/
theorem unknown_action_ignored_witness :
    handleIpcCommand st0 ⟨some "mystery", none⟩
        ConnectOutcome.ok UpdateOutcome.ok = ⟨⟨true, some "", none⟩, st0⟩ :=
  unknown_action_ignored st0 ⟨some "mystery", none⟩
    ConnectOutcome.ok UpdateOutcome.ok
    (by decide) (by decide) (by decide) (by decide) (by decide)

/-- Claim C3 counterexample: the spec says a malformed payload still
gets a failure Response written back. At a concrete accepted
connection whose body fails to decode (the decode function standing
for `json.loads` returns none), the server writes nothing back and
returns None — no Response of any kind is sent, so the claim as stated
is false. -/
theorem accept_malformed_counterexample :
    accept_connection (fun _ => none) (some cbEx)
        (AcceptInput.conn "it is not json") = ⟨none, []⟩ := by
  decide

/-- Claim C3 amended: on a non-empty body that fails to decode, the
raised decode error is caught (ipc.py:92-94), the server writes
nothing back, closes the connection, and `accept_connection` returns
None — the server does not crash, but the client gets no reply. -/
theorem accept_malformed_no_reply (parseCmd : String → Option Command)
    (callback : Option (Command → Response)) (body : String)
    (hne : body ≠ "") (hp : parseCmd body = none) :
    accept_connection parseCmd callback (AcceptInput.conn body) =
      ⟨none, []⟩ := by
  simp [accept_connection, hne, hp]

/-- Witness for the amended C3 at a concrete malformed body. -/
theorem accept_malformed_no_reply_witness :
    accept_connection (fun _ => none) (some cbEx)
        (AcceptInput.conn "x") = ⟨none, []⟩ :=
  accept_malformed_no_reply (fun _ => none) (some cbEx) "x"
    (by decide) rfl

/-- Claim C4: `send_command` is a total function into Response — the
caller always receives one — and every socket-level error becomes a
failure Response carrying `str(e)`, an empty reply becomes the
`No response` failure, and a non-empty body that is neither valid JSON
nor the legacy `OK` becomes the `Invalid response` failure. -/
theorem send_command_failure_response
    (parseResp : String → Option Response) (w : ClientWire) :
    (∀ msg, w = ClientWire.err msg →
      send_command parseResp w = ⟨false, none, some msg⟩) ∧
    (w = ClientWire.okBody "" →
      send_command parseResp w = ⟨false, none, some "No response"⟩) ∧
    (∀ body, w = ClientWire.okBody body → body ≠ "" → body ≠ "OK" →
      parseResp body = none →
      send_command parseResp w = ⟨false, none, some "Invalid response"⟩) := by
  refine ⟨fun msg hw => ?_, fun hw => ?_, fun body hw hne hok hp => ?_⟩
  · subst hw; rfl
  · subst hw; rfl
  · subst hw; simp [send_command, hne, hok, hp]

/-- Witness for C4: the three failure shapes at concrete inputs. -/
theorem send_command_failure_response_witness :
    send_command (fun _ => none) (ClientWire.err "Connection refused") =
      ⟨false, none, some "Connection refused"⟩ ∧
    send_command (fun _ => none) (ClientWire.okBody "") =
      ⟨false, none, some "No response"⟩ ∧
    send_command (fun _ => none) (ClientWire.okBody "garbage") =
      ⟨false, none, some "Invalid response"⟩ :=
  ⟨(send_command_failure_response (fun _ => none)
      (ClientWire.err "Connection refused")).1 "Connection refused" rfl,
   (send_command_failure_response (fun _ => none)
      (ClientWire.okBody "")).2.1 rfl,
   (send_command_failure_response (fun _ => none)
      (ClientWire.okBody "garbage")).2.2 "garbage" rfl
      (by decide) (by decide) rfl⟩

/-- Claim C5 counterexample: the spec says the response to
`list_profiles` against the store holding exactly Gaming and Work is
`{"success":true,"output":"Gaming\nWork\n"}`. The code prints an
`Available profiles:` header and numbered indented lines
(cli_controller.py:45-47), so the output field differs. -/
theorem list_profiles_counterexample :
    ¬ ((handleIpcCommand stGW ⟨some "list_profiles", none⟩
        ConnectOutcome.ok UpdateOutcome.ok).response.output =
      some "Gaming\nWork\n") := by
  decide

/-- Claim C5 amended: against the store holding exactly the profiles
Work and Gaming (stored in that order), the response is success with
output `Available profiles:\n  1. Gaming\n  2. Work\n` — the names in
lexicographically sorted order, rendered with the header and
numbering of `execute_list_profiles`. -/
theorem list_profiles_output :
    handleIpcCommand stGW ⟨some "list_profiles", none⟩
        ConnectOutcome.ok UpdateOutcome.ok =
      ⟨⟨true, some "Available profiles:\n  1. Gaming\n  2. Work\n", none⟩,
       stGW⟩ := by
  decide

/-- Claim C6: a `connect` command naming a profile the store does not
contain answers `success=true` with output `Profile 'Gaming' not
found` plus newline (main.py:464 inside the success wrapper of
`_handle_ipc_command`), leaving the state unchanged — a non-fatal
report, not a failure response. -/
theorem connect_missing_profile (st : AppState) (co : ConnectOutcome)
    (uo : UpdateOutcome) (h : st.profiles.lookup "Gaming" = none) :
    handleIpcCommand st ⟨some "connect", some "Gaming"⟩ co uo =
      ⟨⟨true, some "Profile \x27Gaming\x27 not found\n", none⟩, st⟩ := by
  simp [handleIpcCommand, processIpcCommand, connectBranch, loadProfile, h]

/-- Witness for C6 at the empty store. -/
theorem connect_missing_profile_witness :
    handleIpcCommand st0 ⟨some "connect", some "Gaming"⟩
        ConnectOutcome.ok UpdateOutcome.ok =
      ⟨⟨true, some "Profile \x27Gaming\x27 not found\n", none⟩, st0⟩ :=
  connect_missing_profile st0 ConnectOutcome.ok UpdateOutcome.ok rfl

/-- Claim C7: a received body equal to the two literal bytes `OK` —
which any JSON decode rejects — is interpreted by `send_command` as
the bare-success response with no output and no error
(ipc.py:143-145). -/
theorem legacy_ok_bare_success (parseResp : String → Option Response)
    (hp : parseResp "OK" = none) :
    send_command parseResp (ClientWire.okBody "OK") =
      ⟨true, none, none⟩ := by
  simp [send_command, hp]

/-- Witness for C7 with a decode function rejecting `OK`. -/
theorem legacy_ok_bare_success_witness :
    send_command (fun _ => none) (ClientWire.okBody "OK") =
      ⟨true, none, none⟩ :=
  legacy_ok_bare_success (fun _ => none) rfl
